import Mathlib

/-!
Shallow embedding of `src/emergence_guard.py` (Emergence Guard).

Python floats are idealised as exact rationals (ℚ); a Python `dict` of
signals is an association list with unique keys; a Python exception that a
function may raise is an `Except String` result, the string being the
exception's payload (the missing dict key for `KeyError`, a marker for an
artifact-write failure).  The guard loop's unbounded `while True` is run on
explicit fuel: `LoopResult.outOfFuel` means the loop was still running when
the fuel ran out, `stoppedCritical` means it left the loop through the
`break` after a critical cycle, and `errored e` means an exception other
than `KeyboardInterrupt` escaped `guard_loop` (its `try` catches only
`KeyboardInterrupt`).
-/

namespace EmergenceGuard

/-- A Python `Dict[str, float]` of signals: association list, first match wins. -/
abbrev SignalSet := List (String × ℚ)

/-- `KAPPA_THRESHOLD = 0.80` (line 33). -/
def KAPPA_THRESHOLD : ℚ := 0.80

/-- `EPSILON_THRESHOLD = 0.70` (line 34). -/
def EPSILON_THRESHOLD : ℚ := 0.70

/-- `signals[key]`: returns the value, or raises `KeyError(key)` when the key
is absent, modelled as `Except.error key`. -/
def getSignal (signals : SignalSet) (key : String) : Except String ℚ :=
  match signals.lookup key with
  | some v => Except.ok v
  | none => Except.error key

/-- `_fallback_kappa` (lines 64–70): toy stress metric,
`min(1.0, 0.3*cpu_load + 0.3*memory_usage + 0.2*network_io + 0.2*error_rate)`;
dict accesses happen left to right, so the first absent key raises. -/
def fallback_kappa (signals : SignalSet) : Except String ℚ := do
  let c ← getSignal signals "cpu_load"
  let m ← getSignal signals "memory_usage"
  let n ← getSignal signals "network_io"
  let e ← getSignal signals "error_rate"
  pure (min 1 (0.3 * c + 0.3 * m + 0.2 * n + 0.2 * e))

/-- `_fallback_epsilon` (lines 73–79): toy entropy metric,
`min(1.0, 0.4*response_variance + 0.3*token_entropy + 0.2*pattern_deviation +
0.1*recursion_depth)`. -/
def fallback_epsilon (signals : SignalSet) : Except String ℚ := do
  let rv ← getSignal signals "response_variance"
  let te ← getSignal signals "token_entropy"
  let pd ← getSignal signals "pattern_deviation"
  let rd ← getSignal signals "recursion_depth"
  pure (min 1 (0.4 * rv + 0.3 * te + 0.2 * pd + 0.1 * rd))

/-- Python's `str.startswith`: the candidate's characters are a prefix of
the string's characters. -/
def String.startswith (s p : String) : Bool := p.data.isPrefixOf s.data

/-- `evaluate` (lines 116–123): maps the two scores to a status string; the
κ test is made before the ε test at both the critical and the warning tier. -/
def evaluate (kappa epsilon : ℚ) : String :=
  if kappa > KAPPA_THRESHOLD then "CRITICAL – HIGH STRESS"
  else if epsilon > EPSILON_THRESHOLD then "CRITICAL – HIGH ENTROPY"
  else if kappa > 0.6 ∨ epsilon > 0.5 then "WARNING – ELEVATED"
  else "SAFE"

/-- `Snapshot` dataclass (lines 87–93); the timestamp is idealised as the
cycle index. -/
structure Snapshot where
  kappa : ℚ
  epsilon : ℚ
  status : String
  timestamp : ℕ
  raw : SignalSet
deriving DecidableEq, Repr

/-- The guard loop's mutable state: the `history` list and, for observation,
the list of snapshots handed to `_emergency_shutdown` and successfully
persisted as artifact files. -/
structure LoopState where
  history : List Snapshot
  artifacts : List Snapshot
deriving DecidableEq, Repr

/-- How a run of `guard_loop` ends (given finite fuel). -/
inductive LoopResult where
  | outOfFuel
  | stoppedCritical
  | errored (msg : String)
deriving DecidableEq, Repr

/-- Python 3 `round` to an integer: nearest, ties to even. -/
def pyRoundHalfEven (q : ℚ) : ℤ :=
  let f := ⌊q⌋
  let r := q - f
  if r < 1 / 2 then f
  else if 1 / 2 < r then f + 1
  else if f % 2 = 0 then f else f + 1

/-- Python `round(x, 3)`. -/
def round3 (q : ℚ) : ℚ := (pyRoundHalfEven (q * 1000) : ℚ) / 1000

/-- One cycle's scoring and classification (lines 134–136): κ is computed and
rounded first, then ε, then `evaluate`; a `KeyError` in either scorer
propagates. -/
def runCycle (signals : SignalSet) : Except String (ℚ × ℚ × String) := do
  let kappa0 ← fallback_kappa signals
  let kappa := round3 kappa0
  let epsilon0 ← fallback_epsilon signals
  let epsilon := round3 epsilon0
  pure (kappa, epsilon, evaluate kappa epsilon)

/-- `guard_loop` (lines 126–151) on explicit fuel.  `stream i` is the value
`sense_environment()` returns on cycle `i`; `writeOk` tells whether the
artifact write in `_emergency_shutdown` (line 167) succeeds.  Line 140
(`history[-1000:]`) is an expression statement whose value is discarded, so
the history list is never trimmed and no trimming appears here.  On a
critical status the snapshot is handed to `_emergency_shutdown` and then the
loop breaks; if the artifact write raises, the exception escapes
`guard_loop` (only `KeyboardInterrupt` is caught) and the `break` is never
reached. -/
def guardLoop (stream : ℕ → SignalSet) (writeOk : Bool) :
    ℕ → ℕ → LoopState → LoopResult × LoopState
  | 0, _, st => (LoopResult.outOfFuel, st)
  | fuel + 1, i, st =>
    match runCycle (stream i) with
    | Except.error e => (LoopResult.errored e, st)
    | Except.ok (kappa, epsilon, status) =>
      let snap : Snapshot := ⟨kappa, epsilon, status, i, stream i⟩
      let st' : LoopState := { st with history := st.history ++ [snap] }
      if String.startswith status "CRITICAL" then
        if writeOk then
          (LoopResult.stoppedCritical, { st' with artifacts := st'.artifacts ++ [snap] })
        else
          (LoopResult.errored "ArtifactWriteError", st')
      else
        guardLoop stream writeOk fuel (i + 1) st'

/-- Modelled from the spec: `clamp(x, 0, 1)` — the spec's claimed scoring
shape, to be compared with the source's `min(1.0, ·)`. -/
def clamp01 (q : ℚ) : ℚ := max 0 (min 1 q)

-- concrete inputs used below

/-- All eight required signals present, all zero. -/
def zeroSignals : SignalSet :=
  [("cpu_load", 0), ("memory_usage", 0), ("network_io", 0), ("error_rate", 0),
   ("response_variance", 0), ("token_entropy", 0), ("pattern_deviation", 0),
   ("recursion_depth", 0)]

/-- The end-to-end scenario input of the spec. -/
def c2Signals : SignalSet :=
  [("cpu_load", 0.9), ("memory_usage", 0.9), ("network_io", 0.9), ("error_rate", 0.2),
   ("response_variance", 0.1), ("token_entropy", 0.1), ("pattern_deviation", 0.1),
   ("recursion_depth", 0.1)]

/-- An out-of-range (negative) input: `cpu_load = -1`, the rest zero. -/
def negSignals : SignalSet :=
  [("cpu_load", -1), ("memory_usage", 0), ("network_io", 0), ("error_rate", 0),
   ("response_variance", 0), ("token_entropy", 0), ("pattern_deviation", 0),
   ("recursion_depth", 0)]

/-- A signal set whose fallback κ is 1 (> 0.80): every load signal at 1. -/
def critSignals : SignalSet :=
  [("cpu_load", 1), ("memory_usage", 1), ("network_io", 1), ("error_rate", 1),
   ("response_variance", 0), ("token_entropy", 0), ("pattern_deviation", 0),
   ("recursion_depth", 0)]

/-- The stream whose every cycle senses `zeroSignals`. -/
def zeroStream : ℕ → SignalSet := fun _ => zeroSignals

/-- The stream whose every cycle senses the spec's end-to-end scenario input. -/
def c2Stream : ℕ → SignalSet := fun _ => c2Signals

/-- The stream whose every cycle senses `critSignals`. -/
def critStream : ℕ → SignalSet := fun _ => critSignals

/-- A stream whose first cycle misses every signal and whose later cycles
are all well-formed and safe. -/
def missingThenZeroStream : ℕ → SignalSet := fun i => if i = 0 then [] else zeroSignals

/-- The eight dict keys the fallback scorers read, in the order the source
accesses them (`_fallback_kappa` first, then `_fallback_epsilon`). -/
def requiredKeys : List String :=
  ["cpu_load", "memory_usage", "network_io", "error_rate",
   "response_variance", "token_entropy", "pattern_deviation", "recursion_depth"]

-- concrete evaluations of the scorers, the rounding and the classifier

lemma pyRoundHalfEven_int (n : ℤ) : pyRoundHalfEven (n : ℚ) = n := by
  have h : ⌊(n : ℚ)⌋ = n := Int.floor_intCast n
  simp only [pyRoundHalfEven, h]
  norm_num

lemma round3_zero : round3 0 = 0 := by
  have h : ((0 : ℚ) * 1000) = ((0 : ℤ) : ℚ) := by norm_num
  simp only [round3, h, pyRoundHalfEven_int]
  norm_num

lemma round3_one : round3 1 = 1 := by
  have h : ((1 : ℚ) * 1000) = ((1000 : ℤ) : ℚ) := by norm_num
  simp only [round3, h, pyRoundHalfEven_int]
  norm_num

lemma round3_c2kappa : round3 (19 / 25) = 19 / 25 := by
  have h : ((19 / 25 : ℚ) * 1000) = ((760 : ℤ) : ℚ) := by norm_num
  simp only [round3, h, pyRoundHalfEven_int]
  norm_num

lemma round3_c2epsilon : round3 (1 / 10) = 1 / 10 := by
  have h : ((1 / 10 : ℚ) * 1000) = ((100 : ℤ) : ℚ) := by norm_num
  simp only [round3, h, pyRoundHalfEven_int]
  norm_num

lemma evaluate_safe : evaluate 0 0 = "SAFE" := by
  rw [evaluate, if_neg (by rw [KAPPA_THRESHOLD]; norm_num),
    if_neg (by rw [EPSILON_THRESHOLD]; norm_num), if_neg (by push_neg; norm_num)]

lemma evaluate_c2 : evaluate (19 / 25) (1 / 10) = "WARNING – ELEVATED" := by
  rw [evaluate, if_neg (by rw [KAPPA_THRESHOLD]; norm_num),
    if_neg (by rw [EPSILON_THRESHOLD]; norm_num), if_pos (by left; norm_num)]

lemma evaluate_crit : evaluate 1 0 = "CRITICAL – HIGH STRESS" := by
  rw [evaluate, if_pos (by rw [KAPPA_THRESHOLD]; norm_num)]

lemma fallback_kappa_zero : fallback_kappa zeroSignals = Except.ok 0 := by
  have h : fallback_kappa zeroSignals =
      Except.ok (min 1 (0.3 * 0 + 0.3 * 0 + 0.2 * 0 + 0.2 * 0)) := rfl
  rw [h]; norm_num

lemma fallback_epsilon_zero : fallback_epsilon zeroSignals = Except.ok 0 := by
  have h : fallback_epsilon zeroSignals =
      Except.ok (min 1 (0.4 * 0 + 0.3 * 0 + 0.2 * 0 + 0.1 * 0)) := rfl
  rw [h]; norm_num

lemma runCycle_eq (sig : SignalSet) (a b : ℚ)
    (ha : fallback_kappa sig = Except.ok a) (hb : fallback_epsilon sig = Except.ok b) :
    runCycle sig = Except.ok (round3 a, round3 b, evaluate (round3 a) (round3 b)) := by
  simp only [runCycle, ha, hb, bind, Except.bind, pure, Except.pure]

lemma runCycle_zero : runCycle zeroSignals = Except.ok (0, 0, "SAFE") := by
  rw [runCycle_eq zeroSignals 0 0 fallback_kappa_zero fallback_epsilon_zero,
    round3_zero, evaluate_safe]

lemma fallback_kappa_c2 : fallback_kappa c2Signals = Except.ok (19 / 25) := by
  have h : fallback_kappa c2Signals =
      Except.ok (min 1 (0.3 * 0.9 + 0.3 * 0.9 + 0.2 * 0.9 + 0.2 * 0.2)) := rfl
  rw [h]; norm_num

lemma fallback_epsilon_c2 : fallback_epsilon c2Signals = Except.ok (1 / 10) := by
  have h : fallback_epsilon c2Signals =
      Except.ok (min 1 (0.4 * 0.1 + 0.3 * 0.1 + 0.2 * 0.1 + 0.1 * 0.1)) := rfl
  rw [h]; norm_num

lemma runCycle_c2 : runCycle c2Signals = Except.ok (19 / 25, 1 / 10, "WARNING – ELEVATED") := by
  rw [runCycle_eq c2Signals (19 / 25) (1 / 10) fallback_kappa_c2 fallback_epsilon_c2,
    round3_c2kappa, round3_c2epsilon, evaluate_c2]

lemma fallback_kappa_crit : fallback_kappa critSignals = Except.ok 1 := by
  have h : fallback_kappa critSignals =
      Except.ok (min 1 (0.3 * 1 + 0.3 * 1 + 0.2 * 1 + 0.2 * 1)) := rfl
  rw [h]; norm_num

lemma fallback_epsilon_crit : fallback_epsilon critSignals = Except.ok 0 := by
  have h : fallback_epsilon critSignals =
      Except.ok (min 1 (0.4 * 0 + 0.3 * 0 + 0.2 * 0 + 0.1 * 0)) := rfl
  rw [h]; norm_num

lemma runCycle_crit : runCycle critSignals = Except.ok (1, 0, "CRITICAL – HIGH STRESS") := by
  rw [runCycle_eq critSignals 1 0 fallback_kappa_crit fallback_epsilon_crit,
    round3_one, round3_zero, evaluate_crit]

lemma fallback_kappa_neg : fallback_kappa negSignals = Except.ok (-(3 / 10)) := by
  have h : fallback_kappa negSignals =
      Except.ok (min 1 (0.3 * (-1) + 0.3 * 0 + 0.2 * 0 + 0.2 * 0)) := rfl
  rw [h]; norm_num

lemma startswith_stress : String.startswith "CRITICAL – HIGH STRESS" "CRITICAL" = true := by
  decide

lemma startswith_entropy : String.startswith "CRITICAL – HIGH ENTROPY" "CRITICAL" = true := by
  decide

lemma startswith_warning : String.startswith "WARNING – ELEVATED" "CRITICAL" = false := by
  decide

lemma startswith_safe : String.startswith "SAFE" "CRITICAL" = false := by
  decide

-- single-step unfoldings of the guard loop

lemma guardLoop_error_step {stream : ℕ → SignalSet} {w : Bool} {fuel i : ℕ}
    {st : LoopState} {msg : String} (h : runCycle (stream i) = Except.error msg) :
    guardLoop stream w (fuel + 1) i st = (LoopResult.errored msg, st) := by
  simp only [guardLoop, h]

lemma guardLoop_cont_step {stream : ℕ → SignalSet} {w : Bool} {fuel i : ℕ}
    {st : LoopState} {k e : ℚ} {s : String}
    (h : runCycle (stream i) = Except.ok (k, e, s))
    (hs : String.startswith s "CRITICAL" = false) :
    guardLoop stream w (fuel + 1) i st =
      guardLoop stream w fuel (i + 1)
        { st with history := st.history ++ [⟨k, e, s, i, stream i⟩] } := by
  simp only [guardLoop, h, hs, Bool.false_eq_true, if_false]

lemma guardLoop_crit_step {stream : ℕ → SignalSet} {fuel i : ℕ}
    {st : LoopState} {k e : ℚ} {s : String}
    (h : runCycle (stream i) = Except.ok (k, e, s))
    (hs : String.startswith s "CRITICAL" = true) :
    guardLoop stream true (fuel + 1) i st =
      (LoopResult.stoppedCritical,
        ⟨st.history ++ [⟨k, e, s, i, stream i⟩],
         st.artifacts ++ [⟨k, e, s, i, stream i⟩]⟩) := by
  simp only [guardLoop, h, hs, if_true]

lemma guardLoop_crit_step_writeFail {stream : ℕ → SignalSet} {fuel i : ℕ}
    {st : LoopState} {k e : ℚ} {s : String}
    (h : runCycle (stream i) = Except.ok (k, e, s))
    (hs : String.startswith s "CRITICAL" = true) :
    guardLoop stream false (fuel + 1) i st =
      (LoopResult.errored "ArtifactWriteError",
        { st with history := st.history ++ [⟨k, e, s, i, stream i⟩] }) := by
  simp only [guardLoop, h, hs, if_true, Bool.false_eq_true, if_false]

/-- Inverting a successful cycle: the status it reports is `evaluate` of the
two rounded scores it reports. -/
lemma runCycle_ok_status {sig : SignalSet} {k e : ℚ} {s : String}
    (h : runCycle sig = Except.ok (k, e, s)) : s = evaluate k e := by
  cases hk : fallback_kappa sig with
  | error m => simp [runCycle, hk, bind, Except.bind] at h
  | ok a =>
    cases hb : fallback_epsilon sig with
    | error m => simp [runCycle, hk, hb, bind, Except.bind] at h
    | ok b =>
      simp only [runCycle, hk, hb, bind, Except.bind, pure, Except.pure,
        Except.ok.injEq, Prod.mk.injEq] at h
      obtain ⟨h1, h2, h3⟩ := h
      rw [← h3, ← h1, ← h2]

/-- On the all-zero stream every cycle is SAFE, so the loop never stops by
itself and each cycle appends exactly one snapshot: the history list grows
by one per cycle, without any bound. -/
lemma guardLoop_zero_hist : ∀ (fuel i : ℕ) (st : LoopState),
    (guardLoop zeroStream true fuel i st).2.history.length = st.history.length + fuel := by
  intro fuel
  induction fuel with
  | zero => intro i st; simp [guardLoop]
  | succ n ih =>
    intro i st
    rw [guardLoop_cont_step runCycle_zero startswith_safe, ih]
    simp only [List.length_append, List.length_singleton]
    omega

/-- On the constant end-to-end-scenario stream every cycle is
`WARNING – ELEVATED`: the loop never stops and never writes an artifact. -/
lemma guardLoop_c2_run : ∀ (fuel i : ℕ) (st : LoopState),
    (guardLoop c2Stream true fuel i st).1 = LoopResult.outOfFuel ∧
    (guardLoop c2Stream true fuel i st).2.artifacts = st.artifacts := by
  intro fuel
  induction fuel with
  | zero => intro i st; simp [guardLoop]
  | succ n ih =>
    intro i st
    rw [guardLoop_cont_step runCycle_c2 startswith_warning]
    exact ih (i + 1) _

/-- C1: the history buffer is NOT bounded by 1000 entries.  Line 140
(`history[-1000:]`) is an expression statement whose value is discarded, so
the list is never trimmed, contradicting the line's own comment
`# keep last 1 000`: after 1500 appended snapshots the history holds all
1500 of them. -/
theorem history_unbounded_after_1500 :
    (guardLoop zeroStream true 1500 0 ⟨[], []⟩).2.history.length = 1500 ∧
    ¬ (guardLoop zeroStream true 1500 0 ⟨[], []⟩).2.history.length ≤ 1000 := by
  have h := guardLoop_zero_hist 1500 0 ⟨[], []⟩
  simp only [List.length_nil, Nat.zero_add] at h
  exact ⟨h, by rw [h]; omega⟩

/-- C2 counterexample: on the spec's end-to-end input the fallback stress
score is 0.76 = 19/25, not 0.85, and the classifier returns
`WARNING – ELEVATED`, not a CRITICAL status. -/
theorem c2_scenario_not_critical :
    fallback_kappa c2Signals = Except.ok (19 / 25) ∧ (19 / 25 : ℚ) ≠ 0.85 ∧
    evaluate (19 / 25) (1 / 10) = "WARNING – ELEVATED" ∧
    String.startswith "WARNING – ELEVATED" "CRITICAL" = false :=
  ⟨fallback_kappa_c2, by norm_num, evaluate_c2, startswith_warning⟩

/-- C2 amended: on the input
`{cpu_load:0.9, memory_usage:0.9, network_io:0.9, error_rate:0.2,
response_variance:0.1, token_entropy:0.1, pattern_deviation:0.1,
recursion_depth:0.1}` the fallback stress score is
0.3·0.9 + 0.3·0.9 + 0.2·0.9 + 0.2·0.2 = 0.76 and the volatility score 0.10,
the classifier returns `WARNING – ELEVATED`, and the guard loop does not
stop and produces no emergency artifact, however many cycles it runs. -/
theorem c2_scenario_warning_loop_continues :
    fallback_kappa c2Signals = Except.ok (19 / 25) ∧
    fallback_epsilon c2Signals = Except.ok (1 / 10) ∧
    runCycle c2Signals = Except.ok (19 / 25, 1 / 10, "WARNING – ELEVATED") ∧
    ∀ (fuel i : ℕ) (st : LoopState),
      (guardLoop c2Stream true fuel i st).1 = LoopResult.outOfFuel ∧
      (guardLoop c2Stream true fuel i st).2.artifacts = st.artifacts :=
  ⟨fallback_kappa_c2, fallback_epsilon_c2, runCycle_c2, guardLoop_c2_run⟩

/-- C3 counterexample: with the first cycle's signal set missing every key,
the loop terminates at once with the `KeyError` payload `"cpu_load"`,
leaving an empty history although four more cycles' worth of fuel (with
well-formed signal sets) remained: the error does not merely abort the
current cycle. -/
theorem missing_signal_terminates_loop :
    guardLoop missingThenZeroStream true 5 0 ⟨[], []⟩ =
      (LoopResult.errored "cpu_load", ⟨[], []⟩) :=
  guardLoop_error_step (rfl)

/-- C3 amended: for every SignalSet missing at least one required key, the
first absent key in the fallback's access order determines the `KeyError`:
the cycle's scoring raises a `KeyError` naming that absent required key, and
the exception is not caught by the guard loop (whose `try` catches only
`KeyboardInterrupt`): it terminates the loop instead of aborting only the
current cycle. -/
theorem missing_signal_error_propagates (s : SignalSet)
    (hmiss : ∃ k ∈ requiredKeys, s.lookup k = none) :
    ∃ k ∈ requiredKeys, s.lookup k = none ∧ runCycle s = Except.error k ∧
      ∀ (stream : ℕ → SignalSet) (w : Bool) (fuel i : ℕ) (st : LoopState),
        stream i = s →
        guardLoop stream w (fuel + 1) i st = (LoopResult.errored k, st) := by
  have step : ∀ k : String, k ∈ requiredKeys → s.lookup k = none →
      runCycle s = Except.error k →
      ∃ k ∈ requiredKeys, s.lookup k = none ∧ runCycle s = Except.error k ∧
        ∀ (stream : ℕ → SignalSet) (w : Bool) (fuel i : ℕ) (st : LoopState),
          stream i = s →
          guardLoop stream w (fuel + 1) i st = (LoopResult.errored k, st) :=
    fun k hk hn hr => ⟨k, hk, hn, hr, fun stream w fuel i st hi =>
      guardLoop_error_step (by rw [hi]; exact hr)⟩
  rcases hc : s.lookup "cpu_load" with _ | c
  · exact step "cpu_load" (by simp [requiredKeys]) hc
      (by simp only [runCycle, fallback_kappa, getSignal, hc, bind, Except.bind])
  rcases hm : s.lookup "memory_usage" with _ | m
  · exact step "memory_usage" (by simp [requiredKeys]) hm
      (by simp only [runCycle, fallback_kappa, getSignal, hc, hm, bind, Except.bind])
  rcases hn : s.lookup "network_io" with _ | n
  · exact step "network_io" (by simp [requiredKeys]) hn
      (by simp only [runCycle, fallback_kappa, getSignal, hc, hm, hn, bind, Except.bind])
  rcases he : s.lookup "error_rate" with _ | e
  · exact step "error_rate" (by simp [requiredKeys]) he
      (by simp only [runCycle, fallback_kappa, getSignal, hc, hm, hn, he, bind, Except.bind])
  rcases hrv : s.lookup "response_variance" with _ | rv
  · exact step "response_variance" (by simp [requiredKeys]) hrv
      (by simp only [runCycle, fallback_kappa, fallback_epsilon, getSignal,
        hc, hm, hn, he, hrv, bind, Except.bind, pure, Except.pure])
  rcases hte : s.lookup "token_entropy" with _ | te
  · exact step "token_entropy" (by simp [requiredKeys]) hte
      (by simp only [runCycle, fallback_kappa, fallback_epsilon, getSignal,
        hc, hm, hn, he, hrv, hte, bind, Except.bind, pure, Except.pure])
  rcases hpd : s.lookup "pattern_deviation" with _ | pd
  · exact step "pattern_deviation" (by simp [requiredKeys]) hpd
      (by simp only [runCycle, fallback_kappa, fallback_epsilon, getSignal,
        hc, hm, hn, he, hrv, hte, hpd, bind, Except.bind, pure, Except.pure])
  rcases hrd : s.lookup "recursion_depth" with _ | rd
  · exact step "recursion_depth" (by simp [requiredKeys]) hrd
      (by simp only [runCycle, fallback_kappa, fallback_epsilon, getSignal,
        hc, hm, hn, he, hrv, hte, hpd, hrd, bind, Except.bind, pure, Except.pure])
  exfalso
  clear step
  obtain ⟨k, hk, hknone⟩ := hmiss
  simp only [requiredKeys, List.mem_cons, List.not_mem_nil, or_false] at hk
  rcases hk with rfl | rfl | rfl | rfl | rfl | rfl | rfl | rfl
  · rw [hc] at hknone; exact Option.noConfusion hknone
  · rw [hm] at hknone; exact Option.noConfusion hknone
  · rw [hn] at hknone; exact Option.noConfusion hknone
  · rw [he] at hknone; exact Option.noConfusion hknone
  · rw [hrv] at hknone; exact Option.noConfusion hknone
  · rw [hte] at hknone; exact Option.noConfusion hknone
  · rw [hpd] at hknone; exact Option.noConfusion hknone
  · rw [hrd] at hknone; exact Option.noConfusion hknone

/-- Witness for the C3 amended theorem at the empty signal set, where the
first absent key in access order is `cpu_load`. -/
theorem missing_signal_error_propagates_witness :
    (∃ k ∈ requiredKeys, ([] : SignalSet).lookup k = none) ∧
    ∃ k ∈ requiredKeys, ([] : SignalSet).lookup k = none ∧
      runCycle [] = Except.error k ∧
      ∀ (stream : ℕ → SignalSet) (w : Bool) (fuel i : ℕ) (st : LoopState),
        stream i = ([] : SignalSet) →
        guardLoop stream w (fuel + 1) i st = (LoopResult.errored k, st) :=
  ⟨⟨"cpu_load", by simp [requiredKeys], rfl⟩,
   missing_signal_error_propagates [] ⟨"cpu_load", by simp [requiredKeys], rfl⟩⟩

/-- C4 counterexample: the fallback scorer has no lower clamp — it is
`min(1.0, ·)` only.  With `cpu_load = -1` and the other signals 0 it
returns -0.3, while `clamp(·, 0, 1)` of the same weighted sum is 0: the
returned score is negative, outside [0, 1]. -/
theorem fallback_kappa_negative_score :
    fallback_kappa negSignals = Except.ok (-(3 / 10)) ∧
    clamp01 (0.3 * (-1) + 0.3 * 0 + 0.2 * 0 + 0.2 * 0) = 0 ∧
    ¬ (0 ≤ (-(3 / 10) : ℚ)) := by
  refine ⟨fallback_kappa_neg, ?_, by norm_num⟩
  rw [clamp01]; norm_num

/-- C4 amended: with all eight required keys present the fallback scores
are `min(1, 0.3*cpu_load + 0.3*memory_usage + 0.2*network_io +
0.2*error_rate)` and `min(1, 0.4*response_variance + 0.3*token_entropy +
0.2*pattern_deviation + 0.1*recursion_depth)` — clamped to at most 1 but
not from below, so out-of-range negative inputs yield negative scores. -/
theorem fallback_scores_min_one_only (s : SignalSet) (c m n e rv te pd rd : ℚ)
    (hc : s.lookup "cpu_load" = some c) (hm : s.lookup "memory_usage" = some m)
    (hn : s.lookup "network_io" = some n) (he : s.lookup "error_rate" = some e)
    (hrv : s.lookup "response_variance" = some rv)
    (hte : s.lookup "token_entropy" = some te)
    (hpd : s.lookup "pattern_deviation" = some pd)
    (hrd : s.lookup "recursion_depth" = some rd) :
    fallback_kappa s = Except.ok (min 1 (0.3 * c + 0.3 * m + 0.2 * n + 0.2 * e)) ∧
    fallback_epsilon s = Except.ok (min 1 (0.4 * rv + 0.3 * te + 0.2 * pd + 0.1 * rd)) ∧
    min 1 (0.3 * c + 0.3 * m + 0.2 * n + 0.2 * e) ≤ 1 ∧
    min 1 (0.4 * rv + 0.3 * te + 0.2 * pd + 0.1 * rd) ≤ 1 := by
  refine ⟨?_, ?_, min_le_left _ _, min_le_left _ _⟩
  · simp only [fallback_kappa, getSignal, hc, hm, hn, he, bind, Except.bind,
      pure, Except.pure]
  · simp only [fallback_epsilon, getSignal, hrv, hte, hpd, hrd, bind, Except.bind,
      pure, Except.pure]

/-- Witness for the C4 amended theorem at the negative input. -/
theorem fallback_scores_min_one_only_witness :
    fallback_kappa negSignals =
      Except.ok (min 1 (0.3 * (-1) + 0.3 * 0 + 0.2 * 0 + 0.2 * 0)) ∧
    min (1 : ℚ) (0.3 * (-1) + 0.3 * 0 + 0.2 * 0 + 0.2 * 0) ≤ 1 :=
  ⟨(fallback_scores_min_one_only negSignals (-1) 0 0 0 0 0 0 0
      rfl rfl rfl rfl rfl rfl rfl rfl).1,
   (fallback_scores_min_one_only negSignals (-1) 0 0 0 0 0 0 0
      rfl rfl rfl rfl rfl rfl rfl rfl).2.2.1⟩

/-- C5 counterexample: with the artifact write failing on a critical first
cycle, `guard_loop` ends with the write error escaping it (only
`KeyboardInterrupt` is caught), not with the clean stop after `break`: the
exception does propagate beyond the loop boundary. -/
theorem write_failure_escapes_loop :
    guardLoop critStream false 5 0 ⟨[], []⟩ =
      (LoopResult.errored "ArtifactWriteError",
        ⟨[⟨1, 0, "CRITICAL – HIGH STRESS", 0, critSignals⟩], []⟩) ∧
    LoopResult.errored "ArtifactWriteError" ≠ LoopResult.stoppedCritical := by
  refine ⟨?_, by simp⟩
  rw [guardLoop_crit_step_writeFail runCycle_crit startswith_stress]
  rfl

/-- C5 amended: if persisting the emergency artifact fails, the exception
propagates uncaught out of `guard_loop` — the `break` is never reached and
no clean STOPPED transition happens; the triggering snapshot is still the
single one appended, and no artifact is recorded. -/
theorem artifact_write_failure_propagates (stream : ℕ → SignalSet)
    (fuel i : ℕ) (st : LoopState) (k e : ℚ) (s : String)
    (h : runCycle (stream i) = Except.ok (k, e, s))
    (hs : String.startswith s "CRITICAL" = true) :
    (guardLoop stream false (fuel + 1) i st).1 =
      LoopResult.errored "ArtifactWriteError" ∧
    (guardLoop stream false (fuel + 1) i st).2.history =
      st.history ++ [⟨k, e, s, i, stream i⟩] ∧
    (guardLoop stream false (fuel + 1) i st).2.artifacts = st.artifacts := by
  rw [guardLoop_crit_step_writeFail h hs]
  exact ⟨rfl, rfl, rfl⟩

/-- Witness for the C5 amended theorem on the critical stream. -/
theorem artifact_write_failure_propagates_witness :
    runCycle (critStream 0) = Except.ok (1, 0, "CRITICAL – HIGH STRESS") ∧
    String.startswith "CRITICAL – HIGH STRESS" "CRITICAL" = true ∧
    (guardLoop critStream false 1 0 ⟨[], []⟩).1 =
      LoopResult.errored "ArtifactWriteError" :=
  ⟨runCycle_crit, startswith_stress,
   (artifact_write_failure_propagates critStream 0 0 ⟨[], []⟩ 1 0
      "CRITICAL – HIGH STRESS" runCycle_crit startswith_stress).1⟩

/-- C6 counterexample: on a critical cycle whose artifact write fails, the
loop does NOT transition to the clean stopped state — it ends with the
write exception escaping it — so the unconditional claim fails. -/
theorem critical_write_failure_not_stopped :
    (guardLoop critStream false 3 0 ⟨[], []⟩).1 =
      LoopResult.errored "ArtifactWriteError" ∧
    (guardLoop critStream false 3 0 ⟨[], []⟩).1 ≠ LoopResult.stoppedCritical := by
  rw [guardLoop_crit_step_writeFail runCycle_crit startswith_stress]
  exact ⟨rfl, by simp⟩

/-- C6 amended: on a CRITICAL cycle the loop appends exactly the triggering
snapshot, invokes the emergency handler exactly once for it, and returns —
whatever fuel remains, so no further cycle runs and no further snapshot is
appended.  The run is terminal either way, but the clean stopped state is
reached only when the artifact write succeeds; when it fails, the loop ends
with the write exception instead and no artifact is recorded. -/
theorem critical_cycle_ends_loop (stream : ℕ → SignalSet) (w : Bool)
    (fuel i : ℕ) (st : LoopState) (k e : ℚ) (s : String)
    (h : runCycle (stream i) = Except.ok (k, e, s))
    (hs : String.startswith s "CRITICAL" = true) :
    guardLoop stream w (fuel + 1) i st =
      (if w then LoopResult.stoppedCritical
       else LoopResult.errored "ArtifactWriteError",
       ⟨st.history ++ [⟨k, e, s, i, stream i⟩],
        if w then st.artifacts ++ [⟨k, e, s, i, stream i⟩]
        else st.artifacts⟩) := by
  cases w
  · rw [guardLoop_crit_step_writeFail h hs]
    simp
  · rw [guardLoop_crit_step h hs]
    simp

/-- Witness for the C6 amended theorem on the critical stream with a
succeeding write and seven cycles of fuel left. -/
theorem critical_cycle_ends_loop_witness :
    runCycle (critStream 0) = Except.ok (1, 0, "CRITICAL – HIGH STRESS") ∧
    guardLoop critStream true 8 0 ⟨[], []⟩ =
      (LoopResult.stoppedCritical,
        ⟨[⟨1, 0, "CRITICAL – HIGH STRESS", 0, critSignals⟩],
         [⟨1, 0, "CRITICAL – HIGH STRESS", 0, critSignals⟩]⟩) := by
  refine ⟨runCycle_crit, ?_⟩
  have h := critical_cycle_ends_loop critStream true 7 0 ⟨[], []⟩ 1 0
    "CRITICAL – HIGH STRESS" runCycle_crit startswith_stress
  simpa using h

/-- C7: whenever both scores exceed their critical thresholds the κ branch
of `evaluate` fires first, so the result is `CRITICAL – HIGH STRESS` and
never the ε-caused `CRITICAL – HIGH ENTROPY`. -/
theorem critical_tiebreak_is_stress (k e : ℚ) (hk : k > KAPPA_THRESHOLD)
    (he : e > EPSILON_THRESHOLD) :
    evaluate k e = "CRITICAL – HIGH STRESS" ∧
    evaluate k e ≠ "CRITICAL – HIGH ENTROPY" := by
  rw [evaluate, if_pos hk]
  exact ⟨rfl, by decide⟩

/-- Witness for C7 at the spec's tie-break pair (0.85, 0.75). -/
theorem critical_tiebreak_is_stress_witness :
    (0.85 : ℚ) > KAPPA_THRESHOLD ∧ (0.75 : ℚ) > EPSILON_THRESHOLD ∧
    evaluate 0.85 0.75 = "CRITICAL – HIGH STRESS" :=
  ⟨by norm_num [KAPPA_THRESHOLD], by norm_num [EPSILON_THRESHOLD],
   (critical_tiebreak_is_stress 0.85 0.75 (by norm_num [KAPPA_THRESHOLD])
     (by norm_num [EPSILON_THRESHOLD])).1⟩

/-- C8: the critical comparison is strict — κ exactly at the 0.80 threshold
with ε at or below its threshold does not classify as CRITICAL, while
κ = 0.801 classifies as CRITICAL for every ε. -/
theorem critical_comparison_strict (e : ℚ) (he : e ≤ EPSILON_THRESHOLD) :
    String.startswith (evaluate 0.80 e) "CRITICAL" = false ∧
    ∀ e2 : ℚ, evaluate 0.801 e2 = "CRITICAL – HIGH STRESS" := by
  constructor
  · rw [evaluate, if_neg (by norm_num [KAPPA_THRESHOLD]), if_neg (not_lt.mpr he),
      if_pos (Or.inl (by norm_num))]
    exact startswith_warning
  · intro e2
    rw [evaluate, if_pos (by norm_num [KAPPA_THRESHOLD])]

/-- Witness for C8 at ε = 0.5. -/
theorem critical_comparison_strict_witness :
    (0.5 : ℚ) ≤ EPSILON_THRESHOLD ∧
    String.startswith (evaluate 0.80 0.5) "CRITICAL" = false ∧
    evaluate 0.801 0.5 = "CRITICAL – HIGH STRESS" :=
  ⟨by norm_num [EPSILON_THRESHOLD],
   (critical_comparison_strict 0.5 (by norm_num [EPSILON_THRESHOLD])).1,
   (critical_comparison_strict 0.5 (by norm_num [EPSILON_THRESHOLD])).2 0.5⟩

/-- C9: with all eight required signals present and inside their documented
ranges, both fallback scores land in [0, 1]. -/
theorem fallback_scores_in_range (s : SignalSet) (c m n e rv te pd rd : ℚ)
    (hc : s.lookup "cpu_load" = some c) (hm : s.lookup "memory_usage" = some m)
    (hn : s.lookup "network_io" = some n) (he : s.lookup "error_rate" = some e)
    (hrv : s.lookup "response_variance" = some rv)
    (hte : s.lookup "token_entropy" = some te)
    (hpd : s.lookup "pattern_deviation" = some pd)
    (hrd : s.lookup "recursion_depth" = some rd)
    (hc0 : 0 ≤ c) (hc1 : c ≤ 1) (hm0 : 0 ≤ m) (hm1 : m ≤ 1)
    (hn0 : 0 ≤ n) (hn1 : n ≤ 1) (he0 : 0 ≤ e) (he1 : e ≤ 0.3)
    (hrv0 : 0 ≤ rv) (hrv1 : rv ≤ 1) (hte0 : 0 ≤ te) (hte1 : te ≤ 1)
    (hpd0 : 0 ≤ pd) (hpd1 : pd ≤ 0.5) (hrd0 : 0 ≤ rd) (hrd1 : rd ≤ 0.8) :
    ∃ kv ev : ℚ,
      fallback_kappa s = Except.ok kv ∧ fallback_epsilon s = Except.ok ev ∧
      0 ≤ kv ∧ kv ≤ 1 ∧ 0 ≤ ev ∧ ev ≤ 1 := by
  refine ⟨min 1 (0.3 * c + 0.3 * m + 0.2 * n + 0.2 * e),
    min 1 (0.4 * rv + 0.3 * te + 0.2 * pd + 0.1 * rd), ?_, ?_, ?_, min_le_left _ _,
    ?_, min_le_left _ _⟩
  · simp only [fallback_kappa, getSignal, hc, hm, hn, he, bind, Except.bind,
      pure, Except.pure]
  · simp only [fallback_epsilon, getSignal, hrv, hte, hpd, hrd, bind, Except.bind,
      pure, Except.pure]
  · exact le_min (by norm_num) (by linarith)
  · exact le_min (by norm_num) (by linarith)

/-- Witness for C9 at the all-zero signal set. -/
theorem fallback_scores_in_range_witness :
    ∃ kv ev : ℚ,
      fallback_kappa zeroSignals = Except.ok kv ∧
      fallback_epsilon zeroSignals = Except.ok ev ∧
      0 ≤ kv ∧ kv ≤ 1 ∧ 0 ≤ ev ∧ ev ≤ 1 :=
  fallback_scores_in_range zeroSignals 0 0 0 0 0 0 0 0
    rfl rfl rfl rfl rfl rfl rfl rfl
    (by norm_num) (by norm_num) (by norm_num) (by norm_num)
    (by norm_num) (by norm_num) (by norm_num) (by norm_num)
    (by norm_num) (by norm_num) (by norm_num) (by norm_num)
    (by norm_num) (by norm_num) (by norm_num) (by norm_num)

/-- C10: `evaluate` is total and returns one of exactly four strings; the
returned string starts with `CRITICAL` precisely when κ > 0.80 or ε > 0.70;
and a cycle reporting scores (κ, ε) makes the loop stop with an emergency
artifact at that very cycle precisely under the same condition. -/
theorem evaluate_total_and_critical_iff (k e : ℚ) :
    (evaluate k e = "CRITICAL – HIGH STRESS" ∨
     evaluate k e = "CRITICAL – HIGH ENTROPY" ∨
     evaluate k e = "WARNING – ELEVATED" ∨ evaluate k e = "SAFE") ∧
    (String.startswith (evaluate k e) "CRITICAL" = true ↔
      (k > KAPPA_THRESHOLD ∨ e > EPSILON_THRESHOLD)) ∧
    (∀ (stream : ℕ → SignalSet) (i : ℕ) (st : LoopState) (s : String),
      runCycle (stream i) = Except.ok (k, e, s) →
      ((guardLoop stream true 1 i st).1 = LoopResult.stoppedCritical ↔
        (k > KAPPA_THRESHOLD ∨ e > EPSILON_THRESHOLD)) ∧
      ((guardLoop stream true 1 i st).2.artifacts.length =
          st.artifacts.length + 1 ↔
        (k > KAPPA_THRESHOLD ∨ e > EPSILON_THRESHOLD))) := by
  have h2 : String.startswith (evaluate k e) "CRITICAL" = true ↔
      (k > KAPPA_THRESHOLD ∨ e > EPSILON_THRESHOLD) := by
    by_cases hk : k > KAPPA_THRESHOLD
    · rw [evaluate, if_pos hk]
      exact iff_of_true startswith_stress (Or.inl hk)
    · by_cases hb : e > EPSILON_THRESHOLD
      · rw [evaluate, if_neg hk, if_pos hb]
        exact iff_of_true startswith_entropy (Or.inr hb)
      · have hcond : ¬(k > KAPPA_THRESHOLD ∨ e > EPSILON_THRESHOLD) :=
          not_or.mpr ⟨hk, hb⟩
        rw [evaluate, if_neg hk, if_neg hb]
        by_cases hw : k > 0.6 ∨ e > 0.5
        · rw [if_pos hw]
          exact iff_of_false (by simp [startswith_warning]) hcond
        · rw [if_neg hw]
          exact iff_of_false (by simp [startswith_safe]) hcond
  refine ⟨by rw [evaluate]; split_ifs <;> tauto, h2, ?_⟩
  intro stream i st s h
  have hse : s = evaluate k e := runCycle_ok_status h
  by_cases hcond : k > KAPPA_THRESHOLD ∨ e > EPSILON_THRESHOLD
  · have hsw : String.startswith s "CRITICAL" = true := by
      rw [hse]; exact h2.mpr hcond
    have hstep := @guardLoop_crit_step stream 0 i st k e s h hsw
    simp only [Nat.zero_add] at hstep
    rw [hstep]
    refine ⟨iff_of_true rfl hcond, iff_of_true ?_ hcond⟩
    simp
  · have hsw : String.startswith s "CRITICAL" = false := by
      rw [hse]
      exact Bool.eq_false_iff.mpr (fun ht => hcond (h2.mp ht))
    have hstep := @guardLoop_cont_step stream true 0 i st k e s h hsw
    simp only [Nat.zero_add] at hstep
    rw [hstep]
    refine ⟨iff_of_false (by simp [guardLoop]) hcond,
      iff_of_false ?_ hcond⟩
    simp [guardLoop]

/-- Witness for C10: on the critical stream the single-cycle loop stops
with `stoppedCritical`. -/
theorem evaluate_total_and_critical_iff_witness :
    runCycle (critStream 0) = Except.ok (1, 0, "CRITICAL – HIGH STRESS") ∧
    (guardLoop critStream true 1 0 ⟨[], []⟩).1 = LoopResult.stoppedCritical :=
  ⟨runCycle_crit,
   (((evaluate_total_and_critical_iff 1 0).2.2 critStream 0 ⟨[], []⟩
       "CRITICAL – HIGH STRESS" runCycle_crit).1).mpr
     (Or.inl (by norm_num [KAPPA_THRESHOLD]))⟩

end EmergenceGuard
